import Mathlib

/-!
Verification of the compound-interest calculator
(src/components/compound-interest-calculator.tsx).

Numbers are modelled by exact rationals; the two-decimal presentation
rounding of JavaScript's toFixed(2) (round half toward positive infinity)
is modelled by round2.  The year count is an integer so that the
non-positive cases the spec discusses are representable.
-/

namespace CompoundCalc

/-- Floor of a rational, computed from numerator and denominator so that
it evaluates inside the kernel. -/
def ratFloor (q : ℚ) : ℤ := q.num / (q.den : ℤ)

/-- Rounding to two decimal places, half toward positive infinity,
as Number(x.toFixed(2)) behaves on exactly representable inputs. -/
def round2 (q : ℚ) : ℚ := (ratFloor (q * 100 + 1 / 2) : ℚ) / 100

/-- CalculationParams from the source (lines 12–18).  The frequency is a
string in the running program; the TypeScript union type is a static
annotation only, so unrecognized strings are representable. -/
structure CalculationParams where
  startingAmount : ℚ
  rateOfReturn : ℚ
  incrementalAddition : ℚ
  incrementalFrequency : String
  years : ℤ
deriving DecidableEq

/-- CalculationResult from the source (lines 20–25). -/
structure CalculationResult where
  year : ℤ
  totalValue : ℚ
  invested : ℚ
  gained : ℚ
deriving DecidableEq

/-- Frequency multiplier from the source (lines 38–40): monthly 12,
quarterly 4, anything else 1. -/
def frequencyMultiplier (incrementalFrequency : String) : ℚ :=
  if incrementalFrequency = "monthly" then 12
  else if incrementalFrequency = "quarterly" then 4
  else 1

/-- The body of the source's for-loop (lines 42–53), iterated n times:
currentValue is multiplied by the growth factor, then the per-year
contribution is added to currentValue and to totalInvested, and the
record with two-decimal rounded fields is emitted. -/
def simulateLoop (contrib growth : ℚ) : ℕ → ℤ → ℚ → ℚ → List CalculationResult
  | 0, _, _, _ => []
  | n + 1, year, currentValue, totalInvested =>
    let cv := currentValue * growth + contrib
    let ti := totalInvested + contrib
    { year := year, totalValue := round2 cv, invested := round2 ti,
      gained := round2 (cv - ti) } :: simulateLoop contrib growth n (year + 1) cv ti

/-- calculateCompoundInterest from the source (lines 27–56).  The loop
runs for year = 1 .. years, i.e. max 0 years times. -/
def calculateCompoundInterest (p : CalculationParams) : List CalculationResult :=
  simulateLoop (p.incrementalAddition * frequencyMultiplier p.incrementalFrequency)
    (1 + p.rateOfReturn / 100) p.years.toNat 1 p.startingAmount p.startingAmount

/-- Per-year contribution amount: incrementalAddition times the frequency
multiplier (source lines 44–45). -/
def yearlyContribution (p : CalculationParams) : ℚ :=
  p.incrementalAddition * frequencyMultiplier p.incrementalFrequency

/-- Growth factor 1 + rateOfReturn/100 (source line 43). -/
def growthFactor (p : CalculationParams) : ℚ := 1 + p.rateOfReturn / 100

/-- Full-precision running balance after n years: growth is applied to
the balance first, the contribution is added afterwards, and the
unrounded value is carried forward. -/
def balanceRec (p : CalculationParams) : ℕ → ℚ
  | 0 => p.startingAmount
  | n + 1 => balanceRec p n * growthFactor p + yearlyContribution p

/-- Full-precision cumulative invested amount after n years. -/
def investedRec (p : CalculationParams) : ℕ → ℚ
  | 0 => p.startingAmount
  | n + 1 => investedRec p n + yearlyContribution p

/-- Iterated balance from an arbitrary base, used to state the loop
invariant of simulateLoop. -/
def iterBal (growth contrib b : ℚ) : ℕ → ℚ
  | 0 => b
  | n + 1 => iterBal growth contrib b n * growth + contrib

/-! Helper lemmas. -/

theorem ratFloor_eq_floor (q : ℚ) : ratFloor q = ⌊q⌋ := Rat.floor_def.symm

theorem round2_eq_floor (q : ℚ) : round2 q = ((⌊q * 100 + 1 / 2⌋ : ℤ) : ℚ) / 100 := by
  rw [round2, ratFloor_eq_floor]

theorem round2_mono {a b : ℚ} (h : a ≤ b) : round2 a ≤ round2 b := by
  rw [round2_eq_floor, round2_eq_floor]
  have hf : ⌊a * 100 + 1 / 2⌋ ≤ ⌊b * 100 + 1 / 2⌋ := by
    apply Int.floor_le_floor
    nlinarith
  gcongr

theorem simulateLoop_length (contrib growth : ℚ) :
    ∀ (n : ℕ) (year : ℤ) (cv ti : ℚ),
      (simulateLoop contrib growth n year cv ti).length = n := by
  intro n
  induction n with
  | zero => intro year cv ti; rfl
  | succ n ih => intro year cv ti; simp [simulateLoop, ih]

theorem iterBal_shift (growth contrib b : ℚ) (n : ℕ) :
    iterBal growth contrib (b * growth + contrib) n = iterBal growth contrib b (n + 1) := by
  induction n with
  | zero => rfl
  | succ n ih => rw [iterBal, ih]; rfl

theorem simulateLoop_get? (contrib growth : ℚ) :
    ∀ (n : ℕ) (year : ℤ) (cv ti : ℚ) (i : ℕ), i < n →
      (simulateLoop contrib growth n year cv ti).get? i = some
        { year := year + (i : ℤ),
          totalValue := round2 (iterBal growth contrib cv (i + 1)),
          invested := round2 (ti + ((i : ℚ) + 1) * contrib),
          gained := round2 (iterBal growth contrib cv (i + 1) - (ti + ((i : ℚ) + 1) * contrib)) } := by
  intro n
  induction n with
  | zero => intro year cv ti i hi; omega
  | succ n ih =>
    intro year cv ti i hi
    cases i with
    | zero =>
      simp only [simulateLoop, List.get?, Option.some.injEq, CalculationResult.mk.injEq]
      refine ⟨?_, ?_, ?_, ?_⟩ <;> simp [iterBal]
    | succ j =>
      have hj : j < n := by omega
      simp only [simulateLoop, List.get?]
      rw [ih (year + 1) (cv * growth + contrib) (ti + contrib) j hj]
      simp only [Option.some.injEq, CalculationResult.mk.injEq]
      refine ⟨?_, ?_, ?_, ?_⟩ <;> simp [iterBal_shift, Nat.cast_succ] <;> ring_nf

theorem calculateCompoundInterest_length (p : CalculationParams) :
    (calculateCompoundInterest p).length = p.years.toNat := by
  rw [calculateCompoundInterest, simulateLoop_length]

theorem balanceRec_eq_iterBal (p : CalculationParams) (n : ℕ) :
    balanceRec p n = iterBal (growthFactor p) (yearlyContribution p) p.startingAmount n := by
  induction n with
  | zero => rfl
  | succ n ih => rw [balanceRec, ih]; rfl

theorem investedRec_eq (p : CalculationParams) (n : ℕ) :
    investedRec p n = p.startingAmount + (n : ℚ) * yearlyContribution p := by
  induction n with
  | zero => simp [investedRec]
  | succ n ih => rw [investedRec, ih]; push_cast; ring

theorem calculateCompoundInterest_get? (p : CalculationParams) (i : ℕ)
    (h : i < p.years.toNat) :
    (calculateCompoundInterest p).get? i = some
      { year := 1 + (i : ℤ),
        totalValue := round2 (balanceRec p (i + 1)),
        invested := round2 (investedRec p (i + 1)),
        gained := round2 (balanceRec p (i + 1) - investedRec p (i + 1)) } := by
  rw [calculateCompoundInterest, simulateLoop_get? _ _ _ _ _ _ _ h]
  simp only [Option.some.injEq, CalculationResult.mk.injEq]
  refine ⟨?_, ?_, ?_, ?_⟩ <;>
    simp [balanceRec_eq_iterBal, investedRec_eq, growthFactor, yearlyContribution]

/-- Chart entry from the source (lines 103–107): a year together with the
two optional displayed values. -/
structure ChartEntry where
  year : ℤ
  totalValue1 : Option ℚ
  totalValue2 : Option ℚ
deriving DecidableEq

/-- The JavaScript expression results[i]?.totalValue || null from the
source (lines 105–106): the value is absent past the end of the series,
and also whenever the stored totalValue is 0, since 0 is falsy. -/
def displayedValue (results : List CalculationResult) (i : ℕ) : Option ℚ :=
  match results.get? i with
  | some r => if r.totalValue = 0 then none else some r.totalValue
  | none => none

/-- chartData from the source (lines 101–108): one entry per year from 1
to the longer of the two series. -/
def chartData (results1 results2 : List CalculationResult) : List ChartEntry :=
  (List.range (max results1.length results2.length)).map fun (i : ℕ) =>
    { year := (i : ℤ) + 1,
      totalValue1 := displayedValue results1 i,
      totalValue2 := displayedValue results2 i }

/-- The component state of the coordinator (source lines 59–72). -/
structure CoordinatorState where
  params1 : CalculationParams
  params2 : Option CalculationParams
  results1 : List CalculationResult
  results2 : List CalculationResult
  selectedPoint : Option CalculationResult
  isComparing : Bool
deriving DecidableEq

/-- handleRemoveComparison from the source (lines 86–90): it sets
isComparing to false, params2 to null and results2 to the empty list,
and touches no other state. -/
def handleRemoveComparison (s : CoordinatorState) : CoordinatorState :=
  { s with isComparing := false, params2 := none, results2 := [] }

/-- getXAxisTicks from the source (lines 119–122): maxYears is
max(params1.years, params2?.years || 0) and the ticks are i*5 for
i = 0 .. floor(maxYears/5). -/
def getXAxisTicks (params1 : CalculationParams) (params2 : Option CalculationParams) :
    List ℤ :=
  let maxYears : ℤ := max params1.years (match params2 with | some q => q.years | none => 0)
  (List.range (maxYears / 5 + 1).toNat).map fun (i : ℕ) => (i : ℤ) * 5

/-! More helper lemmas. -/

theorem frequencyMultiplier_pos (s : String) : 0 < frequencyMultiplier s := by
  unfold frequencyMultiplier
  split_ifs <;> norm_num

theorem frequencyMultiplier_monthly : frequencyMultiplier "monthly" = 12 := rfl

theorem frequencyMultiplier_quarterly : frequencyMultiplier "quarterly" = 4 := rfl

theorem frequencyMultiplier_yearly : frequencyMultiplier "yearly" = 1 := rfl

theorem get?_eq_some_of_calc {p : CalculationParams} {i : ℕ} {e : CalculationResult}
    (h : (calculateCompoundInterest p).get? i = some e) :
    i < p.years.toNat ∧ e =
      { year := 1 + (i : ℤ),
        totalValue := round2 (balanceRec p (i + 1)),
        invested := round2 (investedRec p (i + 1)),
        gained := round2 (balanceRec p (i + 1) - investedRec p (i + 1)) } := by
  have hi : i < p.years.toNat := by
    by_contra hn
    rw [List.get?_eq_none.2 (by rw [calculateCompoundInterest_length]; omega)] at h
    cases h
  refine ⟨hi, ?_⟩
  rw [calculateCompoundInterest_get? p i hi, Option.some.injEq] at h
  exact h.symm

theorem displayedValue_eq_some (rs : List CalculationResult) (i : ℕ) (v : ℚ) :
    displayedValue rs i = some v ↔
      ∃ r, rs.get? i = some r ∧ r.totalValue = v ∧ v ≠ 0 := by
  unfold displayedValue
  cases h : rs.get? i with
  | none => simp
  | some r =>
    by_cases h0 : r.totalValue = 0
    · simp only [h0, if_pos rfl]
      constructor
      · intro hv; cases hv
      · rintro ⟨r', hr', hv, hne⟩
        rw [Option.some.injEq] at hr'
        subst hr'
        exact absurd (hv.symm.trans h0) hne
    · simp only [if_neg h0]
      constructor
      · intro hv
        rw [Option.some.injEq] at hv
        exact ⟨r, rfl, hv, hv ▸ h0⟩
      · rintro ⟨r', hr', hv, hne⟩
        rw [Option.some.injEq] at hr'
        subst hr'
        rw [hv]

theorem chartData_length (A B : List CalculationResult) :
    (chartData A B).length = max A.length B.length := by
  simp [chartData]

theorem chartData_get? (A B : List CalculationResult) (i : ℕ)
    (h : i < max A.length B.length) :
    (chartData A B).get? i =
      some ⟨(i : ℤ) + 1, displayedValue A i, displayedValue B i⟩ := by
  unfold chartData
  rw [List.get?_eq_getElem?, List.getElem?_map, List.getElem?_range h]
  rfl

/-! Concrete parameter values used by the claims. -/

/-- The spec's concrete scenario: startingAmount 100, rateOfReturn 10,
incrementalAddition 505.75 (= 2023/4), monthly, one year. -/
def specScenario : CalculationParams := ⟨100, 10, 2023 / 4, "monthly", 1⟩

/-- Parameters separating full-precision carry from round-and-carry:
startingAmount 100.04 (= 2501/25), rate 10, no additions, two years. -/
def carryParams : CalculationParams := ⟨2501 / 25, 10, 0, "yearly", 2⟩

/-- Parameters where rounding the difference differs from the difference
of the rounded values: startingAmount 0.004 (= 1/250), rate 50, one year. -/
def gainedParams : CalculationParams := ⟨1 / 250, 50, 0, "yearly", 1⟩

/-- Parameters with a negative incrementalAddition. -/
def negAddParams : CalculationParams := ⟨100, 0, -1, "yearly", 2⟩

/-! Claim theorems. -/

/-- C1: every entry of the series is obtained by applying growth to the
running balance first and adding the contribution (incrementalAddition
times the frequency multiplier) afterwards, to the balance and to the
invested total alike, so contributions never earn that same year's
growth; concretely, the spec scenario yields the single entry with
totalValue 6179.00, invested 6169.00 and gained 10.00. -/
theorem c1_growth_before_contributions (p : CalculationParams) (i : ℕ)
    (h : i < (calculateCompoundInterest p).length) :
    ((calculateCompoundInterest p).get? i = some
      { year := 1 + (i : ℤ),
        totalValue := round2 (balanceRec p (i + 1)),
        invested := round2 (investedRec p (i + 1)),
        gained := round2 (balanceRec p (i + 1) - investedRec p (i + 1)) }) ∧
    calculateCompoundInterest specScenario = [⟨1, 6179, 6169, 10⟩] := by
  constructor
  · exact calculateCompoundInterest_get? p i
      (by rwa [calculateCompoundInterest_length] at h)
  · apply List.ext_get?
    intro j
    match j with
    | 0 =>
      rw [calculateCompoundInterest_get? specScenario 0 (by norm_num [specScenario])]
      norm_num [specScenario, balanceRec, investedRec, growthFactor, yearlyContribution,
        frequencyMultiplier, round2_eq_floor]
    | (j + 1) =>
      rw [List.get?_eq_none.2 (by rw [calculateCompoundInterest_length]; norm_num [specScenario]),
        List.get?_eq_none.2 (by simp)]

/-- C1 witness: the theorem applied to the spec scenario at index 0. -/
theorem c1_witness :
    ((calculateCompoundInterest specScenario).get? 0 = some
      { year := 1,
        totalValue := round2 (balanceRec specScenario 1),
        invested := round2 (investedRec specScenario 1),
        gained := round2 (balanceRec specScenario 1 - investedRec specScenario 1) }) ∧
    calculateCompoundInterest specScenario = [⟨1, 6179, 6169, 10⟩] :=
  c1_growth_before_contributions specScenario 0
    (by rw [calculateCompoundInterest_length]; norm_num [specScenario])

/-- C2 counterexample: with startingAmount 100.04 and rate 10 the year-1
entry emits 110.04, and year 2 emits 121.05 = round2(110.044 * 1.1); had
the rounded 110.04 been carried into year 2's growth, year 2 would emit
round2(110.04 * 1.1) = 121.04.  The claim's round-and-carry relation
fails at year 1 → 2. -/
theorem c2_counterexample :
    ¬ ∀ (y : ℕ) (e e' : CalculationResult),
        (calculateCompoundInterest carryParams).get? y = some e →
        (calculateCompoundInterest carryParams).get? (y + 1) = some e' →
        e'.totalValue =
          round2 (e.totalValue * growthFactor carryParams + yearlyContribution carryParams) := by
  intro hcl
  have h0 := calculateCompoundInterest_get? carryParams 0 (by norm_num [carryParams])
  have h1 := calculateCompoundInterest_get? carryParams 1 (by norm_num [carryParams])
  have hc := hcl 0 _ _ h0 h1
  norm_num [carryParams, balanceRec, investedRec, growthFactor, yearlyContribution,
    frequencyMultiplier, round2_eq_floor] at hc

/-- C2 amended: the balance carried into the next year's growth step is
the full-precision unrounded balance — rounding is applied only to the
emitted fields — so every emitted totalValue is the two-decimal rounding
of the full-precision recurrence. -/
theorem c2_full_precision_carry (p : CalculationParams) (i : ℕ) (e : CalculationResult)
    (h : (calculateCompoundInterest p).get? i = some e) :
    e.totalValue = round2 (balanceRec p (i + 1)) := by
  rw [(get?_eq_some_of_calc h).2]

/-- C2 witness: the amended theorem at carryParams, index 1, where the
emitted 121.05 is the rounding of the full-precision balance 121.0484. -/
theorem c2_witness :
    ({ year := 2, totalValue := 12105 / 100, invested := 2501 / 25, gained := 2101 / 100 } :
      CalculationResult).totalValue = round2 (balanceRec carryParams 2) := by
  apply c2_full_precision_carry carryParams 1
  rw [calculateCompoundInterest_get? carryParams 1 (by norm_num [carryParams])]
  norm_num [carryParams, balanceRec, investedRec, growthFactor, yearlyContribution,
    frequencyMultiplier, round2_eq_floor]

/-- C3: for positive years the series has exactly years entries, and the
entry at index i carries year i + 1. -/
theorem c3_length_and_year_index (p : CalculationParams) (h : 0 < p.years) :
    ((calculateCompoundInterest p).length : ℤ) = p.years ∧
    ∀ (i : ℕ) (e : CalculationResult),
      (calculateCompoundInterest p).get? i = some e → e.year = (i : ℤ) + 1 := by
  constructor
  · rw [calculateCompoundInterest_length]; omega
  · intro i e he
    have h2 := (get?_eq_some_of_calc he).2
    subst h2
    simp
    omega

/-- C3 witness: the claim at the spec scenario. -/
theorem c3_witness :
    ((calculateCompoundInterest specScenario).length : ℤ) = specScenario.years ∧
    ∀ (i : ℕ) (e : CalculationResult),
      (calculateCompoundInterest specScenario).get? i = some e → e.year = (i : ℤ) + 1 :=
  c3_length_and_year_index specScenario (by norm_num [specScenario])

/-- C4 counterexample: at startingAmount 0.004 and rate 50 the single
entry is totalValue 0.01, invested 0.00, gained 0.00, and 0.00 differs
from 0.01 − 0.00: gained does not equal the difference of the rounded
emitted fields. -/
theorem c4_counterexample :
    ¬ ∀ (i : ℕ) (e : CalculationResult),
        (calculateCompoundInterest gainedParams).get? i = some e →
        e.gained = e.totalValue - e.invested := by
  intro hcl
  have h0 := calculateCompoundInterest_get? gainedParams 0 (by norm_num [gainedParams])
  have hc := hcl 0 _ h0
  norm_num [gainedParams, balanceRec, investedRec, growthFactor, yearlyContribution,
    frequencyMultiplier, round2_eq_floor] at hc

/-- C4 amended: each entry's gained field is the two-decimal rounding of
the full-precision difference totalValue − invested, which can differ by
one cent from the difference of the rounded emitted fields. -/
theorem c4_gained_is_rounded_difference (p : CalculationParams) (i : ℕ) (e : CalculationResult)
    (h : (calculateCompoundInterest p).get? i = some e) :
    e.gained = round2 (balanceRec p (i + 1) - investedRec p (i + 1)) := by
  rw [(get?_eq_some_of_calc h).2]

/-- C4 witness: the amended theorem at gainedParams, index 0. -/
theorem c4_witness :
    ({ year := 1, totalValue := 1 / 100, invested := 0, gained := 0 } :
      CalculationResult).gained =
      round2 (balanceRec gainedParams 1 - investedRec gainedParams 1) := by
  apply c4_gained_is_rounded_difference gainedParams 0
  rw [calculateCompoundInterest_get? gainedParams 0 (by norm_num [gainedParams])]
  norm_num [gainedParams, balanceRec, investedRec, growthFactor, yearlyContribution,
    frequencyMultiplier, round2_eq_floor]

/-- C5 counterexample: with incrementalAddition −1 the invested fields of
the two entries are 99 and then 98, strictly decreasing, so invested is
not non-decreasing for arbitrary real incrementalAddition. -/
theorem c5_counterexample :
    ¬ ∀ (i : ℕ) (e e' : CalculationResult),
        (calculateCompoundInterest negAddParams).get? i = some e →
        (calculateCompoundInterest negAddParams).get? (i + 1) = some e' →
        e.invested ≤ e'.invested := by
  intro hcl
  have h0 := calculateCompoundInterest_get? negAddParams 0 (by norm_num [negAddParams])
  have h1 := calculateCompoundInterest_get? negAddParams 1 (by norm_num [negAddParams])
  have hc := hcl 0 _ _ h0 h1
  norm_num [negAddParams, balanceRec, investedRec, growthFactor, yearlyContribution,
    frequencyMultiplier_yearly, round2_eq_floor] at hc

/-- C5 amended: for a non-negative incrementalAddition the invested field
is non-decreasing across consecutive entries. -/
theorem c5_invested_monotone (p : CalculationParams)
    (hadd : 0 ≤ p.incrementalAddition) (i : ℕ) (e e' : CalculationResult)
    (h : (calculateCompoundInterest p).get? i = some e)
    (h' : (calculateCompoundInterest p).get? (i + 1) = some e') :
    e.invested ≤ e'.invested := by
  rw [(get?_eq_some_of_calc h).2, (get?_eq_some_of_calc h').2]
  show round2 (investedRec p (i + 1)) ≤ round2 (investedRec p (i + 1 + 1))
  apply round2_mono
  have hstep : investedRec p (i + 1 + 1) = investedRec p (i + 1) + yearlyContribution p := rfl
  have hcontrib : 0 ≤ yearlyContribution p :=
    mul_nonneg hadd (le_of_lt (frequencyMultiplier_pos _))
  rw [hstep]
  linarith

/-- C5 witness: the amended theorem at carryParams across years 1 and 2,
where invested stays at 100.04. -/
theorem c5_witness :
    ({ year := 1, totalValue := 11004 / 100, invested := 2501 / 25, gained := 10 } :
        CalculationResult).invested ≤
      ({ year := 2, totalValue := 12105 / 100, invested := 2501 / 25, gained := 2101 / 100 } :
        CalculationResult).invested := by
  apply c5_invested_monotone carryParams (by norm_num [carryParams]) 0
  · rw [calculateCompoundInterest_get? carryParams 0 (by norm_num [carryParams])]
    norm_num [carryParams, balanceRec, investedRec, growthFactor, yearlyContribution,
      frequencyMultiplier, round2_eq_floor]
  · rw [calculateCompoundInterest_get? carryParams 1 (by norm_num [carryParams])]
    norm_num [carryParams, balanceRec, investedRec, growthFactor, yearlyContribution,
      frequencyMultiplier, round2_eq_floor]

/-- Valid parameters whose single entry has totalValue 0. -/
def zeroParams : CalculationParams := ⟨0, 0, 0, "yearly", 1⟩

/-- C6 counterexample: the series for zeroParams has one entry, so year 1
is within its length, yet the merged chart entry for year 1 marks
scenario A absent: results[i]?.totalValue || null turns the falsy stored
value 0 into null. -/
theorem c6_counterexample :
    (calculateCompoundInterest zeroParams).length = 1 ∧
    (chartData (calculateCompoundInterest zeroParams) []).get? 0 =
      some ⟨1, none, none⟩ := by
  have hl : (calculateCompoundInterest zeroParams).length = 1 := by
    rw [calculateCompoundInterest_length]; norm_num [zeroParams]
  have h0 := calculateCompoundInterest_get? zeroParams 0 (by norm_num [zeroParams])
  have hA : displayedValue (calculateCompoundInterest zeroParams) 0 = none := by
    unfold displayedValue
    rw [h0]
    norm_num [zeroParams, balanceRec, investedRec, growthFactor, yearlyContribution,
      frequencyMultiplier_yearly, round2_eq_floor]
  refine ⟨hl, ?_⟩
  rw [chartData_get? _ _ 0 (by rw [hl]; norm_num), hA]
  norm_num
  rfl

/-- C6 amended: the merge has max(lenA, lenB) entries indexed by year
1..max, and a scenario's value is present at a year exactly when that
series reaches the year and the stored totalValue is non-zero; a zero
totalValue is marked absent even within range, since 0 is falsy in the
source's lookup expression. -/
theorem c6_merge_by_year (A B : List CalculationResult) (i : ℕ)
    (h : i < max A.length B.length) :
    (chartData A B).length = max A.length B.length ∧
    ∃ e, (chartData A B).get? i = some e ∧ e.year = (i : ℤ) + 1 ∧
      (∀ v : ℚ, e.totalValue1 = some v ↔
        ∃ r, A.get? i = some r ∧ r.totalValue = v ∧ v ≠ 0) ∧
      (∀ v : ℚ, e.totalValue2 = some v ↔
        ∃ r, B.get? i = some r ∧ r.totalValue = v ∧ v ≠ 0) := by
  refine ⟨chartData_length A B,
    ⟨(i : ℤ) + 1, displayedValue A i, displayedValue B i⟩,
    chartData_get? A B i h, rfl, ?_, ?_⟩
  · intro v; exact displayedValue_eq_some A i v
  · intro v; exact displayedValue_eq_some B i v

/-- C6 witness: the amended theorem for a one-entry series A with
totalValue 5 and an empty series B, at index 0. -/
theorem c6_witness :
    (chartData [⟨1, 5, 5, 0⟩] []).length =
      max ([⟨1, 5, 5, 0⟩] : List CalculationResult).length
        ([] : List CalculationResult).length ∧
    ∃ e, (chartData [⟨1, 5, 5, 0⟩] []).get? 0 = some e ∧ e.year = (0 : ℤ) + 1 ∧
      (∀ v : ℚ, e.totalValue1 = some v ↔
        ∃ r, ([⟨1, 5, 5, 0⟩] : List CalculationResult).get? 0 = some r ∧
          r.totalValue = v ∧ v ≠ 0) ∧
      (∀ v : ℚ, e.totalValue2 = some v ↔
        ∃ r, ([] : List CalculationResult).get? 0 = some r ∧
          r.totalValue = v ∧ v ≠ 0) :=
  c6_merge_by_year [⟨1, 5, 5, 0⟩] [] 0 (by norm_num)

/-- A comparing coordinator state with a selected point. -/
def comparingState : CoordinatorState :=
  { params1 := specScenario, params2 := some specScenario,
    results1 := [], results2 := [⟨1, 6179, 6169, 10⟩],
    selectedPoint := some ⟨1, 6179, 6169, 10⟩, isComparing := true }

/-- C7 counterexample: handleRemoveComparison leaves the selected point
in place — starting from comparingState it is still the chosen record
afterwards, not cleared. -/
theorem c7_counterexample :
    (handleRemoveComparison comparingState).selectedPoint = some ⟨1, 6179, 6169, 10⟩ ∧
    (handleRemoveComparison comparingState).selectedPoint ≠ none := by
  refine ⟨rfl, ?_⟩
  simp [handleRemoveComparison, comparingState]

/-- C7 amended: disabling comparison discards scenario B's parameters
and result series and resets the comparing flag, while the selected
point — and all remaining state — is left unchanged, for every prior
coordinator state. -/
theorem c7_remove_comparison_state (s : CoordinatorState) :
    (handleRemoveComparison s).isComparing = false ∧
    (handleRemoveComparison s).params2 = none ∧
    (handleRemoveComparison s).results2 = [] ∧
    (handleRemoveComparison s).selectedPoint = s.selectedPoint ∧
    (handleRemoveComparison s).params1 = s.params1 ∧
    (handleRemoveComparison s).results1 = s.results1 :=
  ⟨rfl, rfl, rfl, rfl, rfl, rfl⟩

/-- C8: years below 1 (zero or negative) produce the empty series; the
function is total and has no failure path. -/
theorem c8_nonpositive_years_empty (p : CalculationParams) (h : p.years < 1) :
    calculateCompoundInterest p = [] := by
  rw [calculateCompoundInterest]
  have h0 : p.years.toNat = 0 := by omega
  rw [h0]
  rfl

/-- C8 witness: the spec scenario with years 0 gives the empty series. -/
theorem c8_witness :
    calculateCompoundInterest ⟨100, 10, 2023 / 4, "monthly", 0⟩ = [] :=
  c8_nonpositive_years_empty ⟨100, 10, 2023 / 4, "monthly", 0⟩ (by norm_num)

/-- C9: the tick list holds i*5 exactly for the integers i from 0 up to
floor(maxYears/5), in order, where maxYears = max(A.years, B.years or
0); maxYears 30 yields [0, 5, 10, 15, 20, 25, 30] and maxYears 7 yields
[0, 5]. -/
theorem c9_axis_ticks (p1 : CalculationParams) (p2 : Option CalculationParams) :
    (∀ i : ℕ, (getXAxisTicks p1 p2).get? i =
        if (i : ℤ) ≤ (max p1.years (match p2 with | some q => q.years | none => 0)) / 5
        then some ((i : ℤ) * 5) else none) ∧
    getXAxisTicks ⟨100, 10, 2023 / 4, "monthly", 30⟩ none = [0, 5, 10, 15, 20, 25, 30] ∧
    getXAxisTicks ⟨100, 10, 2023 / 4, "monthly", 7⟩ none = [0, 5] := by
  refine ⟨?_, by decide, by decide⟩
  intro i
  unfold getXAxisTicks
  set m : ℤ := max p1.years (match p2 with | some q => q.years | none => 0) with hm
  by_cases hi : i < (m / 5 + 1).toNat
  · rw [List.get?_eq_getElem?, List.getElem?_map, List.getElem?_range hi, if_pos (by omega)]
    rfl
  · rw [List.get?_eq_none.2
      (by simp only [List.length_map, List.length_range]; omega), if_neg (by omega)]

/-- C10: any frequency string other than monthly and quarterly —
including unrecognized values — takes the final else branch, multiplier
1, and the simulation behaves exactly as if the frequency were yearly,
with no error path. -/
theorem c10_unrecognized_frequency_is_yearly (p : CalculationParams)
    (h1 : p.incrementalFrequency ≠ "monthly") (h2 : p.incrementalFrequency ≠ "quarterly") :
    calculateCompoundInterest p =
      calculateCompoundInterest { p with incrementalFrequency := "yearly" } := by
  unfold calculateCompoundInterest
  have hmul : frequencyMultiplier p.incrementalFrequency = 1 := by
    unfold frequencyMultiplier
    rw [if_neg h1, if_neg h2]
  simp [hmul, frequencyMultiplier_yearly]

/-- C10 witness: the unrecognized frequency string "weekly" behaves as
yearly. -/
theorem c10_witness :
    calculateCompoundInterest ⟨100, 10, 5, "weekly", 3⟩ =
      calculateCompoundInterest ⟨100, 10, 5, "yearly", 3⟩ :=
  c10_unrecognized_frequency_is_yearly ⟨100, 10, 5, "weekly", 3⟩
    (by decide) (by decide)

end CompoundCalc
